import Mathlib

/-!
Verification development for the invoice-extraction serverless handlers of
this repository.  The repository holds three near-duplicate revisions of one
HTTP handler:

* `src/api/extract-invoice.js` — two handlers separated in the file: a batch
  handler (`files` array, per-file retry loop, error entries pushed into a
  shared array) and a single-file handler (`imageData`/`mimeType`, one model
  call, no retry loop);
* `src/unnamed/part_000` — a batch variant that rejects non-PDF files,
  converts page one of each PDF to PNG in memory, retries the model call,
  and flattens the extracted invoices into CSV rows;
* `src/unnamed/part_001` — a single-file variant that converts PDFs to PNG
  through poppler using temporary files under `/tmp`, then runs the same
  retry loop as the batch handler.

The external generative-model call is an opaque collaborator: each call
either throws or resolves with a response whose
`candidates[0].content.parts[0].text` field may be absent.  It is modelled
by an oracle `Nat → CallOutcome` giving the outcome of the n-th call.
`JSON.parse` is modelled by `jsonParse`, a recursive-descent parser for the
JSON fragment exercised here (null, booleans, integer numbers, strings with
the common escapes, arrays, objects, whitespace).
-/

namespace Knognix

/-- Parsed JSON values, the result type of the modelled `JSON.parse`. -/
inductive Json where
  | null : Json
  | bool (b : Bool) : Json
  | num (n : Int) : Json
  | str (s : String) : Json
  | arr (xs : List Json) : Json
  | obj (kvs : List (String × Json)) : Json

/-- Left brace character, written by code to satisfy source hygiene. -/
def lbrace : Char := Char.ofNat 123

/-- Right brace character. -/
def rbrace : Char := Char.ofNat 125

/-- Backtick character (starts a markdown code fence). -/
def backtick : Char := Char.ofNat 96

/-- JSON insignificant whitespace. -/
def isWsChar (c : Char) : Bool :=
  c = ' ' || c = '\t' || c = '\n' || c = '\r'

/-- Drop leading JSON whitespace. -/
def skipWs : List Char → List Char
  | [] => []
  | c :: rest => if isWsChar c then skipWs rest else c :: rest

/-- Expect the literal characters `p` at the head of the input. -/
def stripPfx : List Char → List Char → Option (List Char)
  | [], cs => some cs
  | _ :: _, [] => none
  | p :: ps, c :: cs => if c = p then stripPfx ps cs else none

/-- Translate a JSON string escape character. -/
def escChar (c : Char) : Option Char :=
  if c = '"' then some '"'
  else if c = '\\' then some '\\'
  else if c = '/' then some '/'
  else if c = 'n' then some '\n'
  else if c = 't' then some '\t'
  else if c = 'r' then some '\r'
  else if c = 'b' then some (Char.ofNat 8)
  else if c = 'f' then some (Char.ofNat 12)
  else none

/-- Parse the body of a JSON string (the opening quote already consumed). -/
def parseStrAux : List Char → List Char → Option (String × List Char)
  | [], _ => none
  | '\\' :: rest, acc =>
    match rest with
    | [] => none
    | e :: rest2 =>
      match escChar e with
      | some c => parseStrAux rest2 (c :: acc)
      | none => none
  | '"' :: rest, acc => some (String.mk acc.reverse, rest)
  | c :: rest, acc => parseStrAux rest (c :: acc)

/-- Digits-to-number accumulator. -/
def digitsToNat (ds : List Char) : Nat :=
  ds.foldl (fun n c => n * 10 + (c.toNat - 48)) 0

/-- Parser modes: a value, the items of an array, the members of an object. -/
inductive PMode where
  | val : PMode
  | arrItems (acc : List Json) : PMode
  | objItems (acc : List (String × Json)) : PMode

/-- Fuel-indexed recursive-descent parser for the JSON fragment used by the
handlers.  Fuel decreases on every recursive call; `jsonParse` supplies
enough fuel for any input. -/
def parseF : Nat → PMode → List Char → Option (Json × List Char)
  | 0, _, _ => none
  | fuel + 1, PMode.val, cs =>
    match skipWs cs with
    | [] => none
    | c :: rest =>
      if c = 'n' then (stripPfx ['u', 'l', 'l'] rest).map (fun r => (Json.null, r))
      else if c = 't' then (stripPfx ['r', 'u', 'e'] rest).map (fun r => (Json.bool true, r))
      else if c = 'f' then (stripPfx ['a', 'l', 's', 'e'] rest).map (fun r => (Json.bool false, r))
      else if c = '"' then (parseStrAux rest []).map (fun p => (Json.str p.1, p.2))
      else if c = '[' then
        match skipWs rest with
        | [] => none
        | c2 :: r2 =>
          if c2 = ']' then some (Json.arr [], r2)
          else parseF fuel (PMode.arrItems []) (c2 :: r2)
      else if c = lbrace then
        match skipWs rest with
        | [] => none
        | c2 :: r2 =>
          if c2 = rbrace then some (Json.obj [], r2)
          else parseF fuel (PMode.objItems []) (c2 :: r2)
      else if c = '-' then
        match (c :: rest).tail.span Char.isDigit with
        | (ds, r) => if ds.isEmpty then none else some (Json.num (-(digitsToNat ds : Int)), r)
      else if c.isDigit then
        match (c :: rest).span Char.isDigit with
        | (ds, r) => some (Json.num (digitsToNat ds : Int), r)
      else none
  | fuel + 1, PMode.arrItems acc, cs =>
    match parseF fuel PMode.val cs with
    | none => none
    | some (j, r) =>
      match skipWs r with
      | [] => none
      | c :: r2 =>
        if c = ',' then parseF fuel (PMode.arrItems (acc ++ [j])) r2
        else if c = ']' then some (Json.arr (acc ++ [j]), r2)
        else none
  | fuel + 1, PMode.objItems acc, cs =>
    match skipWs cs with
    | [] => none
    | c :: rest =>
      if c = '"' then
        match parseStrAux rest [] with
        | none => none
        | some (k, r) =>
          match skipWs r with
          | [] => none
          | c2 :: r2 =>
            if c2 = ':' then
              match parseF fuel PMode.val r2 with
              | none => none
              | some (v, r3) =>
                match skipWs r3 with
                | [] => none
                | c3 :: r4 =>
                  if c3 = ',' then parseF fuel (PMode.objItems (acc ++ [(k, v)])) r4
                  else if c3 = rbrace then some (Json.obj (acc ++ [(k, v)]), r4)
                  else none
            else none
      else none

/-- Model of `JSON.parse` on a character list: parse one value and require
only trailing whitespace afterwards; `none` models a thrown `SyntaxError`. -/
def jsonParseChars (cs : List Char) : Option Json :=
  match parseF (2 * cs.length + 2) PMode.val cs with
  | some (j, r) => if (skipWs r).isEmpty then some j else none
  | none => none

/-- Model of `JSON.parse` on a string. -/
def jsonParse (s : String) : Option Json :=
  jsonParseChars s.data

/-- The fenced wrapping named by the spec: the model text surrounded by
markdown ```json fences. -/
def fence (t : String) : String := "```json\n" ++ t ++ "\n```"

/-- JavaScript property access `j.k` on a parsed value: `none` models
`undefined` (missing key or non-object receiver). -/
def Json.get? (j : Json) (k : String) : Option Json :=
  match j with
  | Json.obj kvs => kvs.lookup k
  | _ => none

/-- JavaScript truthiness of an optional string field destructured from the
request body: `undefined`, `null` and the empty string are falsy. -/
def truthy : Option String → Bool
  | none => false
  | some s => !s.isEmpty

/-- Outcome of one `model.generateContent` call: the promise either rejects
(`throws`, carrying `error.message`) or resolves with a response whose
`candidates[0].content.parts[0].text` is modelled by the optional `text`. -/
inductive CallOutcome where
  | throws (msg : String) : CallOutcome
  | responds (text : Option String) : CallOutcome

/-- An attempt that failed: it threw, or its response had no text part. -/
def CallOutcome.failed : CallOutcome → Bool
  | CallOutcome.throws _ => true
  | CallOutcome.responds none => true
  | CallOutcome.responds (some _) => false

/-- State when the retry loop of `src/api/extract-invoice.js` (batch
handler, lines 109-163) and of `src/unnamed/part_001` (lines 116-166)
finishes: the JS `result` variable (`none` if never assigned, otherwise the
last resolved response with its optional text part), the number of
`generateContent` calls issued, and the backoff delays slept (seconds). -/
structure RetryOutcome where
  result : Option (Option String)
  callsMade : Nat
  delays : List Nat

/-- One execution of the shared retry `while` loop.  The loop condition is
`retries < 3`; every iteration issues one call; a response with a text part
breaks out; otherwise `retries` is incremented and, when further attempts
remain, the loop sleeps `2 ^ retries` seconds.  `fuel` is `3 - retries`, so
the initial call is `retryGo oracle 3 0 none []`. -/
def retryGo (oracle : Nat → CallOutcome) :
    Nat → Nat → Option (Option String) → List Nat → RetryOutcome
  | 0, calls, result, delays => ⟨result, calls, delays⟩
  | fuel + 1, calls, result, delays =>
    match oracle calls with
    | CallOutcome.responds (some t) => ⟨some (some t), calls + 1, delays⟩
    | CallOutcome.responds none =>
      retryGo oracle fuel (calls + 1) (some none)
        (if calls + 1 < 3 then delays ++ [2 ^ (calls + 1)] else delays)
    | CallOutcome.throws _ =>
      retryGo oracle fuel (calls + 1) result
        (if calls + 1 < 3 then delays ++ [2 ^ (calls + 1)] else delays)

/-- The retry loop as entered by both handlers (`maxRetries = 3`,
`retries = 0`, `result` unassigned). -/
def runRetry (oracle : Nat → CallOutcome) : RetryOutcome :=
  retryGo oracle 3 0 none []

/-- An HTTP response as produced by the serverless framework: a JSON body
via `response.json(...)`, an empty body via `response.end()`, or a raw text
body via `response.send(...)` — the platform offers the latter but none of
the handlers in this repository ever uses it. -/
inductive HttpResult where
  | json (status : Nat) (body : Json) : HttpResult
  | empty (status : Nat) : HttpResult
  | raw (status : Nat) (body : String) : HttpResult

/-- Whether the response was produced through the raw, non-JSON channel. -/
def HttpResult.isRaw : HttpResult → Bool
  | HttpResult.raw _ _ => true
  | _ => false

/-- HTTP status code of a response. -/
def HttpResult.statusOf : HttpResult → Nat
  | HttpResult.json s _ => s
  | HttpResult.empty s => s
  | HttpResult.raw s _ => s

/-- Process environment: presence of `process.env.GEMINI_API_KEY`. -/
structure Env where
  geminiApiKey : Option String

/-- One element of the `files` array of a batch request body. -/
structure FileEntry where
  imageData : String
  mimeType : String
deriving DecidableEq

/-- Body and method of a request to the batch handler of
`src/api/extract-invoice.js`.  `files = none` models a body whose `files`
field is missing or not an array. -/
structure BatchReq where
  method : String
  files : Option (List FileEntry)

/-- Per-file pipeline of the batch handler of `src/api/extract-invoice.js`
(lines 88-181): the `imagePart` object literal cannot throw (the
surrounding catch is dead code in this revision), so the pipeline is the
retry loop, the exhaustion check, and `JSON.parse` with its catch.  Returns
the entry pushed into `extractedInvoices` and the number of external calls
issued for this file. -/
def processFile (oracle : Nat → CallOutcome) : Json × Nat :=
  let o := runRetry oracle
  match o.result.bind id with
  | none =>
    (Json.obj [("error", Json.str "AI extraction failed after multiple retries.")], o.callsMade)
  | some text =>
    match jsonParse text with
    | some j => (j, o.callsMade)
    | none =>
      (Json.obj [("error", Json.str "AI returned a response that could not be parsed.")], o.callsMade)

/-- Batch handler of `src/api/extract-invoice.js` (lines 21-192).  `world`
gives the call-outcome oracle of each file (file index, then call index).
The per-file pipelines run under `Promise.all`; none of them can reject, so
the handler always reaches the final `response.status(200)`.  The second
component counts the external calls issued during the request. -/
def batchHandler (env : Env) (req : BatchReq) (world : Nat → Nat → CallOutcome) :
    HttpResult × Nat :=
  if req.method = "OPTIONS" then (HttpResult.empty 200, 0)
  else if req.method ≠ "POST" then
    (HttpResult.json 405 (Json.obj [("message", Json.str "Method Not Allowed")]), 0)
  else
    match env.geminiApiKey with
    | none =>
      (HttpResult.json 500 (Json.obj [("error", Json.str "API key is not configured on the server.")]), 0)
    | some _ =>
      match req.files with
      | none =>
        (HttpResult.json 400 (Json.obj [("error", Json.str "Missing or invalid file array in request body.")]), 0)
      | some files =>
        if files.isEmpty then
          (HttpResult.json 400 (Json.obj [("error", Json.str "Missing or invalid file array in request body.")]), 0)
        else
          let entries := (List.range files.length).map (fun i => processFile (world i))
          (HttpResult.json 200 (Json.obj [("invoices", Json.arr (entries.map Prod.fst))]),
            (entries.map Prod.snd).sum)

/-- Body and method of a request to the single-file handler of
`src/api/extract-invoice.js` (lines 198-325). -/
structure SingleReq where
  method : String
  imageData : Option String
  mimeType : Option String

/-- Single-file handler of `src/api/extract-invoice.js` (lines 198-325):
one `generateContent` call with no retry loop; a thrown call or a thrown
`JSON.parse` lands in the top-level catch (`emsg` models the JS engine
message of the `SyntaxError` raised for an unparseable text). -/
def singleHandler (env : Env) (req : SingleReq) (call : CallOutcome)
    (emsg : String → String) : HttpResult × Nat :=
  if req.method = "OPTIONS" then (HttpResult.empty 200, 0)
  else if req.method ≠ "POST" then
    (HttpResult.json 405 (Json.obj [("message", Json.str "Method Not Allowed")]), 0)
  else
    match env.geminiApiKey with
    | none =>
      (HttpResult.json 500 (Json.obj [("error", Json.str "API key is not configured on the server.")]), 0)
    | some _ =>
      if !(truthy req.imageData && truthy req.mimeType) then
        (HttpResult.json 400 (Json.obj [("error", Json.str "Missing imageData or mimeType in request body.")]), 0)
      else
        match call with
        | CallOutcome.throws m =>
          (HttpResult.json 500 (Json.obj [("error", Json.str "Failed to process invoice."), ("details", Json.str m)]), 1)
        | CallOutcome.responds none =>
          (HttpResult.json 500 (Json.obj [("error", Json.str "Failed to process AI response."), ("details", Json.str "Unexpected or empty response from the AI model.")]), 1)
        | CallOutcome.responds (some t) =>
          match jsonParse t with
          | some j => (HttpResult.json 200 j, 1)
          | none =>
            (HttpResult.json 500 (Json.obj [("error", Json.str "Failed to process invoice."), ("details", Json.str (emsg t))]), 1)

/-- Path of the temporary PDF written by `src/unnamed/part_001`
(`path.join('/tmp', 'invoice-' + Date.now() + '.pdf')`). -/
def pdfPath (t : Nat) : String := "/tmp/invoice-" ++ Nat.repr t ++ ".pdf"

/-- Path of the PNG that `src/unnamed/part_001` reads back after poppler:
the `tempPngPath` stem plus the `-1.png` page suffix. -/
def pngReadPath (t : Nat) : String := "/tmp/invoice-" ++ Nat.repr t ++ "-1.png"

/-- PDF-to-PNG branch of `src/unnamed/part_001` (lines 48-76).  The three
`Date.now()` readings are `n1` (temp PDF path), `n2` (the `tempPngPath`
stem later read back) and `n3` (the poppler `out_prefix`).  `poppler` is
`some msg` when `poppler.convert` rejects with message `msg`; `pdf2png`
models the rasterised page-one content.  The filesystem is the list of
temporary file paths present under `/tmp`; a thrown step surfaces the
filesystem state reached so far, since the code has no cleanup handler on
its failure paths (`fs.unlinkSync` runs only after a successful read). -/
def convertPdf (imageData : String) (n1 n2 n3 : Nat) (poppler : Option String)
    (pdf2png : String → String) (fs : List String) :
    Except (String × List String) (String × String × List String) :=
  let fs1 := fs ++ [pdfPath n1]
  match poppler with
  | some msg => Except.error (msg, fs1)
  | none =>
    let fs2 := fs1 ++ [pngReadPath n3]
    if pngReadPath n2 ∈ fs2 then
      Except.ok (pdf2png imageData, "image/png",
        (fs2.erase (pdfPath n1)).erase (pngReadPath n2))
    else
      Except.error ("ENOENT: no such file or directory, open " ++ pngReadPath n2, fs2)

/-- Document normalisation of `src/unnamed/part_001`: PDFs go through the
conversion branch, every other MIME type passes through unchanged — there
is no unsupported-type rejection in this revision. -/
def normalize001 (imageData mimeType : String) (n1 n2 n3 : Nat)
    (poppler : Option String) (pdf2png : String → String) (fs : List String) :
    Except (String × List String) (String × String × List String) :=
  if mimeType = "application/pdf" then
    convertPdf imageData n1 n2 n3 poppler pdf2png fs
  else Except.ok (imageData, mimeType, fs)

/-- Request to `src/unnamed/part_001`.  `body = none` models a raw body
that is not valid JSON (rejected with 400 before anything else); otherwise
the optional `imageData` and `mimeType` fields of the parsed body, absent
or string-valued. -/
structure P001Req where
  method : String
  body : Option (Option String × Option String)

/-- Observable outcome of one `src/unnamed/part_001` request: the HTTP
response, the number of external calls issued, and the temporary files
still present under `/tmp` when the request completes. -/
structure P001Out where
  res : HttpResult
  calls : Nat
  tmp : List String

/-- Handler of `src/unnamed/part_001` (lines 6-196): CORS preflight, method
check, body parse, credential check, field validation, PDF conversion with
temporary files, the shared retry loop, exhaustion check, and `JSON.parse`
with a dedicated catch. -/
def part001Handler (env : Env) (req : P001Req) (n1 n2 n3 : Nat)
    (poppler : Option String) (pdf2png : String → String)
    (oracle : Nat → CallOutcome) (fs : List String) : P001Out :=
  if req.method = "OPTIONS" then ⟨HttpResult.empty 200, 0, fs⟩
  else if req.method ≠ "POST" then
    ⟨HttpResult.json 405 (Json.obj [("message", Json.str "Method Not Allowed")]), 0, fs⟩
  else
    match req.body with
    | none => ⟨HttpResult.json 400 (Json.obj [("error", Json.str "Invalid JSON payload.")]), 0, fs⟩
    | some (imageData, mimeType) =>
      match env.geminiApiKey with
      | none =>
        ⟨HttpResult.json 500 (Json.obj [("error", Json.str "API key is not configured on the server.")]), 0, fs⟩
      | some _ =>
        if !(truthy imageData && truthy mimeType) then
          ⟨HttpResult.json 400 (Json.obj [("error", Json.str "Missing imageData or mimeType in request body.")]), 0, fs⟩
        else
          match normalize001 (imageData.getD "") (mimeType.getD "") n1 n2 n3 poppler pdf2png fs with
          | Except.error (msg, fs2) =>
            ⟨HttpResult.json 500 (Json.obj [("error", Json.str "Failed to process invoice."), ("details", Json.str msg)]), 0, fs2⟩
          | Except.ok (_, _, fs2) =>
            match (runRetry oracle).result.bind id with
            | none =>
              ⟨HttpResult.json 500 (Json.obj [("error", Json.str "Failed to process AI response."), ("details", Json.str "The AI model returned an unexpected or empty response after multiple retries.")]), (runRetry oracle).callsMade, fs2⟩
            | some t =>
              match jsonParse t with
              | some j => ⟨HttpResult.json 200 j, (runRetry oracle).callsMade, fs2⟩
              | none =>
                ⟨HttpResult.json 500 (Json.obj [("error", Json.str "Failed to parse AI response."), ("details", Json.str "The AI returned a response that could not be parsed as valid JSON.")]), (runRetry oracle).callsMade, fs2⟩

/-- Document normalisation of the batch handler of
`src/api/extract-invoice.js` (lines 88-101): the bytes and declared MIME
type are wrapped into `imagePart` unchanged, with no MIME-type check of any
kind. -/
def normalizeBatchJs (f : FileEntry) : Except String FileEntry :=
  Except.ok f

/-- Document normalisation of `src/unnamed/part_000` (lines 61-78): every
file whose MIME type is not `application/pdf` — images included — is
rejected by `throw new Error('Only PDFs are supported.')`; PDFs have page
one extracted (pdf-lib) and rasterised to a width-1200 PNG (sharp),
abstracted by `pdf2png`. -/
def normalize000 (f : FileEntry) (pdf2png : String → String) : Except String FileEntry :=
  if f.mimeType ≠ "application/pdf" then Except.error "Only PDFs are supported."
  else Except.ok ⟨pdf2png f.imageData, "image/png"⟩

/-- Retry `while` loop of `src/unnamed/part_000` (lines 90-133), run with
`fuel` remaining loop iterations.  `calls` counts `generateContent` calls
issued so far and indexes the oracle; `retries` is the JS loop counter.
This loop increments `retries` only inside its catch block, so a call that
resolves with a textless response repeats without progress.  Result:
`none` when the fuel is exhausted with the loop still running;
`some (some j, calls)` when a response text parsed as `j` and the loop
broke; `some (none, calls)` when `retries` reached 3 with `aiResponse`
unassigned. -/
def go000 (oracle : Nat → CallOutcome) : Nat → Nat → Nat → Option (Option Json × Nat)
  | 0, _, _ => none
  | fuel + 1, calls, retries =>
    if retries < 3 then
      match oracle calls with
      | CallOutcome.throws _ => go000 oracle fuel (calls + 1) (retries + 1)
      | CallOutcome.responds none => go000 oracle fuel (calls + 1) retries
      | CallOutcome.responds (some t) =>
        match jsonParse t with
        | some j => some (some j, calls + 1)
        | none => go000 oracle fuel (calls + 1) (retries + 1)
    else some (none, calls)

/-- Per-file pipeline of `src/unnamed/part_000` (lines 60-137): MIME
check, PDF-to-PNG conversion (`conv`, which can throw), the retry loop,
and the `if (!aiResponse) throw` guard.  `none` models a per-file promise
that has not settled after `fuel` loop iterations; `some (Except.error m)`
a rejected promise; `some (Except.ok j)` a resolved one. -/
def processFile000 (oracle : Nat → CallOutcome) (conv : String → Except String String)
    (f : FileEntry) (fuel : Nat) : Option (Except String Json) :=
  if f.mimeType ≠ "application/pdf" then some (Except.error "Only PDFs are supported.")
  else
    match conv f.imageData with
    | Except.error m => some (Except.error m)
    | Except.ok _ =>
      match go000 oracle fuel 0 0 with
      | none => none
      | some (none, _) => some (Except.error "AI extraction failed after retries.")
      | some (some j, _) => some (Except.ok j)

/-- One row of the tabular export built by `src/unnamed/part_000`
(lines 143-174): the six invoice-level columns and the four line-item
columns.  `none` models a JavaScript `undefined` cell (missing source
field); `some Json.null` an explicit `null`. -/
structure CsvRecord where
  invoiceNumber : Option Json
  vendorName : Option Json
  invoiceDate : Option Json
  dueDate : Option Json
  totalAmount : Option Json
  currency : Option Json
  product : Option Json
  quantity : Option Json
  unitPrice : Option Json
  totalPrice : Option Json

/-- Row pushed for one line item: invoice-level fields copied from the
invoice, item-level fields read from the item. -/
def itemRow (inv item : Json) : CsvRecord :=
  ⟨inv.get? "invoiceNumber", inv.get? "vendorName", inv.get? "invoiceDate",
    inv.get? "dueDate", inv.get? "totalAmount", inv.get? "currency",
    item.get? "product", item.get? "quantity", item.get? "unitPrice",
    item.get? "totalPrice"⟩

/-- Row pushed for an invoice with no line items: item-level columns are
the explicit `null` literals of the source. -/
def nullRow (inv : Json) : CsvRecord :=
  ⟨inv.get? "invoiceNumber", inv.get? "vendorName", inv.get? "invoiceDate",
    inv.get? "dueDate", inv.get? "totalAmount", inv.get? "currency",
    some Json.null, some Json.null, some Json.null, some Json.null⟩

/-- Rows contributed by one extracted invoice
(`inv.lineItems && inv.lineItems.length > 0` branch of lines 145-173):
one row per line item when the list is non-empty, one null-item row
otherwise (the `lineItems` field of an extracted record is an array, null
or absent; see `LineItemsShaped`). -/
def flattenOne (inv : Json) : List CsvRecord :=
  match inv.get? "lineItems" with
  | some (Json.arr items) =>
    if items.isEmpty then [nullRow inv] else items.map (itemRow inv)
  | _ => [nullRow inv]

/-- The `csvRecords` accumulation over all extracted invoices
(`extractedInvoices.forEach` of lines 144-174). -/
def flattenInvoices (invs : List Json) : List CsvRecord :=
  (invs.map flattenOne).flatten

/-- The `lineItems` field of an invoice record is an array, `null`, or
absent — the shapes the extraction schema of this repository can produce
(on other shapes the JS flattening would diverge from any tabular reading,
e.g. a non-empty string receiver has no `forEach`). -/
def LineItemsShaped (inv : Json) : Prop :=
  match inv.get? "lineItems" with
  | some (Json.arr _) => True
  | some Json.null => True
  | none => True
  | _ => False

/-- Number of line items of an extracted invoice (0 when `lineItems` is
absent, null or empty). -/
def numLineItems (inv : Json) : Nat :=
  match inv.get? "lineItems" with
  | some (Json.arr items) => items.length
  | _ => 0

/-- First rejection among the per-file promises, in slot order —
`Promise.all` rejects with it and the whole `src/unnamed/part_000` request
fails. -/
def firstError : List (Option (Except String Json)) → Option String
  | [] => none
  | some (Except.error m) :: _ => some m
  | _ :: rest => firstError rest

/-- Observable outcome of a `src/unnamed/part_000` request: either an HTTP
response, or no response at all (a per-file pipeline that never settles
keeps `Promise.all` pending forever). -/
inductive P000Res where
  | hang : P000Res
  | http (r : HttpResult) : P000Res

/-- Handler of `src/unnamed/part_000` (lines 10-215).  `files?` is the
`files` field of the parsed body (`none`: missing or not an array);
`world` the per-file call oracles; `conv` the PDF-to-PNG conversion;
`fuel` bounds the buggy retry loops; `csv` and `xlsx` abstract the
json2csv and ExcelJS serialisers (already base64-encoded).  Any per-file
rejection rejects the `Promise.all` and the whole request returns 500 with
that message; if no file rejects but one never settles, the handler hangs;
otherwise the response carries the invoices and their tabular exports. -/
def part000Handler (env : Env) (files? : Option (List FileEntry))
    (world : Nat → Nat → CallOutcome) (conv : String → Except String String)
    (fuel : Nat) (csv xlsx : List CsvRecord → String) : P000Res :=
  match files? with
  | none =>
    P000Res.http (HttpResult.json 400 (Json.obj [("error", Json.str "No files provided or invalid format.")]))
  | some files =>
    if files.isEmpty then
      P000Res.http (HttpResult.json 400 (Json.obj [("error", Json.str "No files provided or invalid format.")]))
    else
      match env.geminiApiKey with
      | none => P000Res.http (HttpResult.json 500 (Json.obj [("error", Json.str "API key missing.")]))
      | some _ =>
        let results := files.enum.map (fun p => processFile000 (world p.1) conv p.2 fuel)
        match firstError results with
        | some m => P000Res.http (HttpResult.json 500 (Json.obj [("error", Json.str m)]))
        | none =>
          if results.any Option.isNone then P000Res.hang
          else
            let invs := results.filterMap (fun r =>
              match r with
              | some (Except.ok j) => some j
              | _ => none)
            let rows := flattenInvoices invs
            P000Res.http (HttpResult.json 200 (Json.obj
              [("invoices", Json.arr invs), ("csv", Json.str (csv rows)),
                ("excel", Json.str (xlsx rows))]))

/-- C10: in both handlers of `src/api/extract-invoice.js` the
API-credential check precedes request-body validation — a POST request
that lacks the required body fields while `GEMINI_API_KEY` is unset gets
the HTTP 500 configuration error, not the HTTP 400 client-input error. -/
theorem c10_key_check_first (env : Env) (henv : env.geminiApiKey = none)
    (breq : BatchReq) (hbm : breq.method = "POST") (_hbf : breq.files = none)
    (world : Nat → Nat → CallOutcome)
    (sreq : SingleReq) (hsm : sreq.method = "POST") (_hsd : sreq.imageData = none)
    (call : CallOutcome) (emsg : String → String) :
    (batchHandler env breq world).1
      = HttpResult.json 500 (Json.obj [("error", Json.str "API key is not configured on the server.")])
    ∧ (singleHandler env sreq call emsg).1
      = HttpResult.json 500 (Json.obj [("error", Json.str "API key is not configured on the server.")])
    ∧ (batchHandler env breq world).1.statusOf ≠ 400
    ∧ (singleHandler env sreq call emsg).1.statusOf ≠ 400 := by
  have hb : (batchHandler env breq world).1
      = HttpResult.json 500 (Json.obj [("error", Json.str "API key is not configured on the server.")]) := by
    simp [batchHandler, hbm, henv]
  have hs : (singleHandler env sreq call emsg).1
      = HttpResult.json 500 (Json.obj [("error", Json.str "API key is not configured on the server.")]) := by
    simp [singleHandler, hsm, henv]
  refine ⟨hb, hs, ?_, ?_⟩
  · rw [hb]; decide
  · rw [hs]; decide

/-- Witness for `c10_key_check_first` at a concrete unset-key request. -/
theorem c10_key_check_first_witness :
    (Env.mk none).geminiApiKey = none
    ∧ (BatchReq.mk "POST" none).method = "POST"
    ∧ (batchHandler (Env.mk none) (BatchReq.mk "POST" none) (fun _ _ => CallOutcome.throws "e")).1
      = HttpResult.json 500 (Json.obj [("error", Json.str "API key is not configured on the server.")]) := by
  refine ⟨rfl, rfl, ?_⟩
  exact (c10_key_check_first (Env.mk none) rfl (BatchReq.mk "POST" none) rfl rfl
    (fun _ _ => CallOutcome.throws "e") (SingleReq.mk "POST" none none) rfl rfl
    (CallOutcome.throws "e") id).1

/-- C7 counterexample: a POST request that lacks the required body fields
while `GEMINI_API_KEY` is unset gets HTTP 500, not the HTTP 400 the claim
asserts for every request missing the required fields. -/
theorem c7_missing_fields_counterexample :
    (batchHandler (Env.mk none) (BatchReq.mk "POST" none) (fun _ _ => CallOutcome.throws "e")).1
      = HttpResult.json 500 (Json.obj [("error", Json.str "API key is not configured on the server.")])
    ∧ (batchHandler (Env.mk none) (BatchReq.mk "POST" none) (fun _ _ => CallOutcome.throws "e")).1.statusOf
      = 500
    ∧ (singleHandler (Env.mk none) (SingleReq.mk "POST" none none) (CallOutcome.throws "e") id).1.statusOf
      = 500 := ⟨rfl, rfl, rfl⟩

/-- C7 amended: for every POST request with the API credential configured
and the required body fields missing (batch: no `files` array or an empty
one; single-file and `part_001`: falsy `imageData` or `mimeType`), the
handler returns HTTP 400 and issues no external model call. -/
theorem c7_validation_400 (env : Env) (key : String) (henv : env.geminiApiKey = some key)
    (breq : BatchReq) (hbm : breq.method = "POST")
    (hbf : breq.files = none ∨ breq.files = some [])
    (world : Nat → Nat → CallOutcome)
    (sreq : SingleReq) (hsm : sreq.method = "POST")
    (hsv : truthy sreq.imageData = false ∨ truthy sreq.mimeType = false)
    (call : CallOutcome) (emsg : String → String)
    (p1 : P001Req) (hpm : p1.method = "POST")
    (bd bm : Option String) (hpb : p1.body = some (bd, bm))
    (hpv : truthy bd = false ∨ truthy bm = false)
    (n1 n2 n3 : Nat) (poppler : Option String) (pdf2png : String → String)
    (oracle : Nat → CallOutcome) (fs : List String) :
    batchHandler env breq world
      = (HttpResult.json 400 (Json.obj [("error", Json.str "Missing or invalid file array in request body.")]), 0)
    ∧ singleHandler env sreq call emsg
      = (HttpResult.json 400 (Json.obj [("error", Json.str "Missing imageData or mimeType in request body.")]), 0)
    ∧ part001Handler env p1 n1 n2 n3 poppler pdf2png oracle fs
      = ⟨HttpResult.json 400 (Json.obj [("error", Json.str "Missing imageData or mimeType in request body.")]), 0, fs⟩ := by
  refine ⟨?_, ?_, ?_⟩
  · rcases hbf with h | h <;> simp [batchHandler, hbm, henv, h]
  · rcases hsv with h | h <;> simp [singleHandler, hsm, henv, h]
  · rcases hpv with h | h <;> simp [part001Handler, hpm, henv, hpb, h]

/-- Witness for `c7_validation_400` at concrete field-missing requests. -/
theorem c7_validation_400_witness :
    (Env.mk (some "k")).geminiApiKey = some "k"
    ∧ truthy none = false
    ∧ batchHandler (Env.mk (some "k")) (BatchReq.mk "POST" none) (fun _ _ => CallOutcome.throws "e")
      = (HttpResult.json 400 (Json.obj [("error", Json.str "Missing or invalid file array in request body.")]), 0) := by
  refine ⟨rfl, rfl, ?_⟩
  exact (c7_validation_400 (Env.mk (some "k")) "k" rfl (BatchReq.mk "POST" none) rfl (Or.inl rfl)
    (fun _ _ => CallOutcome.throws "e") (SingleReq.mk "POST" none (some "image/png")) rfl
    (Or.inl rfl) (CallOutcome.throws "e") id (P001Req.mk "POST" (some (none, some "image/png"))) rfl
    none (some "image/png") rfl (Or.inl rfl) 0 0 0 none id (fun _ => CallOutcome.throws "e") []).1

/-- C5 counterexample: no variant rejects a MIME type that is neither
`image/*` nor `application/pdf` — `part_001` and the batch handler pass a
`text/plain` payload through unchanged — and `part_000` rejects image
inputs instead of passing their bytes through. -/
theorem c5_mime_counterexample :
    normalize001 "AA" "text/plain" 0 0 0 none id []
      = Except.ok ("AA", "text/plain", [])
    ∧ normalizeBatchJs (FileEntry.mk "AA" "text/plain")
      = Except.ok (FileEntry.mk "AA" "text/plain")
    ∧ normalize000 (FileEntry.mk "AA" "image/png") id
      = Except.error "Only PDFs are supported." := ⟨rfl, rfl, rfl⟩

/-- C5 amended: the `part_000` normaliser rejects every file whose declared
MIME type is not `application/pdf` — images included — with the error
`Only PDFs are supported.`; the batch handler of `src/api/extract-invoice.js`
and `part_001` accept any MIME type, and every non-PDF input (image or
otherwise) passes through with bytes and MIME type unchanged. -/
theorem c5_normalizer_behavior (f : FileEntry) (hf : f.mimeType ≠ "application/pdf")
    (pdf2png : String → String) (d m : String) (hm : m ≠ "application/pdf")
    (n1 n2 n3 : Nat) (poppler : Option String) (p2p : String → String)
    (fs : List String) :
    normalize000 f pdf2png = Except.error "Only PDFs are supported."
    ∧ normalizeBatchJs f = Except.ok f
    ∧ normalize001 d m n1 n2 n3 poppler p2p fs = Except.ok (d, m, fs) := by
  refine ⟨?_, rfl, ?_⟩
  · simp [normalize000, hf]
  · simp [normalize001, hm]

/-- Witness for `c5_normalizer_behavior` at a PNG and a plain-text input. -/
theorem c5_normalizer_behavior_witness :
    (FileEntry.mk "AA" "image/png").mimeType ≠ "application/pdf"
    ∧ normalize000 (FileEntry.mk "AA" "image/png") id = Except.error "Only PDFs are supported."
    ∧ normalize001 "BB" "text/plain" 1 2 3 none id [] = Except.ok ("BB", "text/plain", []) := by
  refine ⟨by decide, ?_, ?_⟩
  · exact (c5_normalizer_behavior (FileEntry.mk "AA" "image/png") (by decide) id "BB"
      "text/plain" (by decide) 1 2 3 none id []).1
  · exact (c5_normalizer_behavior (FileEntry.mk "AA" "image/png") (by decide) id "BB"
      "text/plain" (by decide) 1 2 3 none id []).2.2

/-- C9: on the failure paths of the PDF conversion of `src/unnamed/part_001`
the temporary files are NOT deleted — when `poppler.convert` throws, the
temp PDF written by `fs.writeFileSync` is still on disk when the request
completes with HTTP 500, because the `fs.unlinkSync` calls are only reached
after a successful conversion and read (there is no finally-style cleanup).
On the success path both temp files are removed. -/
theorem c9_temp_file_leak :
    convertPdf "AA" 7 7 7 (some "poppler crashed") id []
      = Except.error ("poppler crashed", ["/tmp/invoice-7.pdf"])
    ∧ (part001Handler (Env.mk (some "k"))
        (P001Req.mk "POST" (some (some "AA", some "application/pdf")))
        7 7 7 (some "poppler crashed") id
        (fun _ => CallOutcome.responds (some "\x7b\x7d")) []).tmp
      = ["/tmp/invoice-7.pdf"]
    ∧ (part001Handler (Env.mk (some "k"))
        (P001Req.mk "POST" (some (some "AA", some "application/pdf")))
        7 7 7 (some "poppler crashed") id
        (fun _ => CallOutcome.responds (some "\x7b\x7d")) []).res
      = HttpResult.json 500 (Json.obj [("error", Json.str "Failed to process invoice."), ("details", Json.str "poppler crashed")])
    ∧ (part001Handler (Env.mk (some "k"))
        (P001Req.mk "POST" (some (some "AA", some "application/pdf")))
        7 7 7 none id
        (fun _ => CallOutcome.responds (some "\x7b\x7d")) []).tmp
      = []
    ∧ (part001Handler (Env.mk (some "k"))
        (P001Req.mk "POST" (some (some "AA", some "application/pdf")))
        7 7 7 none id
        (fun _ => CallOutcome.responds (some "\x7b\x7d")) []).res
      = HttpResult.json 200 (Json.obj []) := ⟨rfl, rfl, rfl, rfl, rfl⟩

/-- C1: the retry loop shared by the batch handler of
`src/api/extract-invoice.js` and by `part_001` does terminate after exactly
3 failing attempts (thrown calls or textless responses) and surfaces the
exhaustion error; the `part_000` loop also terminates after 3 attempts when
every attempt throws — but when the call resolves with a response carrying
no text part, `part_000` increments `retries` only in its catch block, so
the loop re-issues the call forever for every iteration bound, and the
whole batch request of `part_000` hangs instead of answering. -/
theorem c1_retry_termination :
    runRetry (fun _ => CallOutcome.throws "boom") = ⟨none, 3, [2, 4]⟩
    ∧ (processFile (fun _ => CallOutcome.throws "boom")).1
      = Json.obj [("error", Json.str "AI extraction failed after multiple retries.")]
    ∧ runRetry (fun _ => CallOutcome.responds none) = ⟨some none, 3, [2, 4]⟩
    ∧ (processFile (fun _ => CallOutcome.responds none)).1
      = Json.obj [("error", Json.str "AI extraction failed after multiple retries.")]
    ∧ (part001Handler (Env.mk (some "k"))
        (P001Req.mk "POST" (some (some "AA", some "image/png")))
        0 0 0 none id (fun _ => CallOutcome.throws "boom") []).res
      = HttpResult.json 500 (Json.obj [("error", Json.str "Failed to process AI response."), ("details", Json.str "The AI model returned an unexpected or empty response after multiple retries.")])
    ∧ go000 (fun _ => CallOutcome.throws "boom") 4 0 0 = some (none, 3)
    ∧ processFile000 (fun _ => CallOutcome.throws "boom") Except.ok
        (FileEntry.mk "AA" "application/pdf") 4
      = some (Except.error "AI extraction failed after retries.")
    ∧ (∀ fuel calls, go000 (fun _ => CallOutcome.responds none) fuel calls 0 = none)
    ∧ (∀ fuel, part000Handler (Env.mk (some "k"))
        (some [FileEntry.mk "AA" "application/pdf"])
        (fun _ _ => CallOutcome.responds none) Except.ok fuel
        (fun _ => "") (fun _ => "") = P000Res.hang) := by
  have hgo : ∀ fuel calls, go000 (fun _ => CallOutcome.responds none) fuel calls 0 = none := by
    intro fuel
    induction fuel with
    | zero => intro _; rfl
    | succ f ih => intro calls; exact ih (calls + 1)
  refine ⟨rfl, rfl, rfl, rfl, rfl, rfl, rfl, hgo, ?_⟩
  intro fuel
  simp [part000Handler, List.enum, List.enumFrom, processFile000, hgo fuel 0, firstError]

/-- C6 counterexample: in `src/unnamed/part_000` a batch of 2 files where
file 0 has an unsupported MIME type does NOT produce a length-2 result
array with an error entry at slot 0 — the per-file `throw` rejects the
`Promise.all` and the whole request fails with HTTP 500 carrying that
file's message, even though file 1's pipeline succeeds on its own. -/
theorem c6_escalation_counterexample :
    part000Handler (Env.mk (some "k"))
      (some [FileEntry.mk "AAA" "image/png", FileEntry.mk "BBB" "application/pdf"])
      (fun _ _ => CallOutcome.responds (some "\x7b\x7d")) Except.ok 9
      (fun _ => "") (fun _ => "")
      = P000Res.http (HttpResult.json 500 (Json.obj [("error", Json.str "Only PDFs are supported.")]))
    ∧ processFile000 (fun _ => CallOutcome.responds (some "\x7b\x7d")) Except.ok
        (FileEntry.mk "BBB" "application/pdf") 9
      = some (Except.ok (Json.obj [])) := ⟨rfl, rfl⟩

/-- C6 amended: in the batch handler of `src/api/extract-invoice.js` a
per-file failure is isolated — for every non-empty batch the handler
returns HTTP 200 with one result entry per file (length N), and the entry
at slot i is determined by file i's own pipeline alone (an error envelope
when that pipeline fails), entries being appended in completion order,
which under the sequential model equals input order; in `src/unnamed/part_000`
a single per-file failure instead rejects the whole batch with HTTP 500. -/
theorem c6_batch_isolation (env : Env) (key : String) (henv : env.geminiApiKey = some key)
    (files : List FileEntry) (hne : files ≠ []) (world : Nat → Nat → CallOutcome) :
    (batchHandler env (BatchReq.mk "POST" (some files)) world).1
      = HttpResult.json 200 (Json.obj [("invoices",
          Json.arr ((List.range files.length).map (fun i => (processFile (world i)).1)))])
    ∧ ((List.range files.length).map (fun i => (processFile (world i)).1)).length
      = files.length
    ∧ ∀ i, i < files.length →
        ((List.range files.length).map (fun i => (processFile (world i)).1))[i]?
          = some (processFile (world i)).1 := by
  refine ⟨?_, by simp, ?_⟩
  · cases files with
    | nil => exact absurd rfl hne
    | cons a l => simp [batchHandler, henv, List.map_map, Function.comp]
  · intro i hi
    rw [List.getElem?_map, List.getElem?_range hi]
    rfl

/-- Witness for `c6_batch_isolation` on a concrete 2-file batch in which
file 0's pipeline fails and file 1's succeeds. -/
theorem c6_batch_isolation_witness :
    (Env.mk (some "k")).geminiApiKey = some "k"
    ∧ ([FileEntry.mk "A" "image/png", FileEntry.mk "B" "image/png"] : List FileEntry) ≠ []
    ∧ (batchHandler (Env.mk (some "k"))
        (BatchReq.mk "POST" (some [FileEntry.mk "A" "image/png", FileEntry.mk "B" "image/png"]))
        (fun i _ => if i = 0 then CallOutcome.throws "boom"
          else CallOutcome.responds (some "\x7b\x7d"))).1
      = HttpResult.json 200 (Json.obj [("invoices", Json.arr
          [Json.obj [("error", Json.str "AI extraction failed after multiple retries.")],
            Json.obj []])]) := by
  refine ⟨rfl, by decide, ?_⟩
  have h := (c6_batch_isolation (Env.mk (some "k")) "k" rfl
    [FileEntry.mk "A" "image/png", FileEntry.mk "B" "image/png"] (by decide)
    (fun i _ => if i = 0 then CallOutcome.throws "boom"
      else CallOutcome.responds (some "\x7b\x7d"))).1
  exact h.trans (by rfl)

/-- A JSON value never starts with a backtick, so the parser rejects any
backtick-headed input outright. -/
theorem parseF_backtick (fuel : Nat) (r : List Char) :
    parseF (fuel + 1) PMode.val (backtick :: r) = none := by
  have hws : skipWs (backtick :: r) = backtick :: r := by
    have h : isWsChar backtick = false := by decide
    simp [skipWs, h]
  have hn : ¬(backtick = 'n') := by decide
  have ht : ¬(backtick = 't') := by decide
  have hf : ¬(backtick = 'f') := by decide
  have hq : ¬(backtick = '"') := by decide
  have hb : ¬(backtick = '[') := by decide
  have hl : ¬(backtick = lbrace) := by decide
  have hm : ¬(backtick = '-') := by decide
  have hd : backtick.isDigit = false := by decide
  simp [parseF, hws, hn, ht, hf, hq, hb, hl, hm, hd]

/-- `JSON.parse` (modelled) fails on every backtick-headed input. -/
theorem jsonParseChars_backtick (r : List Char) :
    jsonParseChars (backtick :: r) = none := by
  unfold jsonParseChars
  rw [show 2 * (backtick :: r).length + 2 = (2 * (backtick :: r).length + 1) + 1 from rfl,
    parseF_backtick]

/-- The retry loop breaks out on a first call that resolves with a text
part, after exactly one call and no backoff sleeps. -/
theorem runRetry_first_success (oracle : Nat → CallOutcome) (t : String)
    (h0 : oracle 0 = CallOutcome.responds (some t)) :
    runRetry oracle = ⟨some (some t), 1, []⟩ := by
  unfold runRetry
  rw [show (3 : Nat) = 2 + 1 from rfl]
  simp only [retryGo]
  rw [h0]

/-- Per-file pipeline of the `extract-invoice.js` batch handler when the
first call succeeds but its text does not parse as JSON: the fixed
could-not-be-parsed envelope is pushed. -/
theorem processFile_parse_fail (oracle : Nat → CallOutcome) (t : String)
    (h0 : oracle 0 = CallOutcome.responds (some t)) (ht : jsonParse t = none) :
    processFile oracle
      = (Json.obj [("error", Json.str "AI returned a response that could not be parsed.")], 1) := by
  unfold processFile
  rw [runRetry_first_success oracle t h0]
  simp [ht]

/-- Per-file pipeline of the `extract-invoice.js` batch handler when the
first call succeeds and its text parses to `j`. -/
theorem processFile_parse_ok (oracle : Nat → CallOutcome) (t : String) (j : Json)
    (h0 : oracle 0 = CallOutcome.responds (some t)) (ht : jsonParse t = some j) :
    processFile oracle = (j, 1) := by
  unfold processFile
  rw [runRetry_first_success oracle t h0]
  simp [ht]

/-- `part_001` on a valid non-PDF request whose first model call yields an
unparseable text: the fixed parse-failure envelope, HTTP 500. -/
theorem part001_parse_fail (key d : String) (hd : truthy (some d) = true)
    (oracle : Nat → CallOutcome) (t : String)
    (h0 : oracle 0 = CallOutcome.responds (some t)) (ht : jsonParse t = none)
    (n1 n2 n3 : Nat) (pop : Option String) (p2p : String → String) (fs : List String) :
    part001Handler (Env.mk (some key)) (P001Req.mk "POST" (some (some d, some "image/png")))
      n1 n2 n3 pop p2p oracle fs
      = ⟨HttpResult.json 500 (Json.obj [("error", Json.str "Failed to parse AI response."),
          ("details", Json.str "The AI returned a response that could not be parsed as valid JSON.")]), 1, fs⟩ := by
  unfold part001Handler
  rw [runRetry_first_success oracle t h0]
  have him : truthy (some "image/png") = true := rfl
  simp [hd, him, normalize001, ht]

/-- C3 counterexample: wrapping a parseable model output in ```json fences
changes the parsed result — the plain text `\x7b\x7d` parses to the empty
object while its fenced wrapping fails to parse, and the handler pipeline
returns the parse-failure envelope instead of the same object.  No
fence-stripping retry exists anywhere in the code. -/
theorem c3_fence_counterexample :
    jsonParse "\x7b\x7d" = some (Json.obj [])
    ∧ jsonParse (fence "\x7b\x7d") = none
    ∧ (processFile (fun _ => CallOutcome.responds (some "\x7b\x7d"))).1 = Json.obj []
    ∧ (processFile (fun _ => CallOutcome.responds (some (fence "\x7b\x7d")))).1
      = Json.obj [("error", Json.str "AI returned a response that could not be parsed.")]
    ∧ Json.obj [("error", Json.str "AI returned a response that could not be parsed.")]
      ≠ Json.obj [] := by
  refine ⟨rfl, rfl, rfl, rfl, by simp⟩

/-- C3 amended: the parsers of this repository attempt a single direct
`JSON.parse` with no fence-stripping retry, so every fenced model output —
whatever text the fences wrap — fails to parse, and the batch pipeline and
`part_001` return their parse-failure envelopes rather than the object the
unfenced text would give. -/
theorem c3_no_fence_strip (t : String) (oracle : Nat → CallOutcome)
    (h0 : oracle 0 = CallOutcome.responds (some (fence t)))
    (key d : String) (hd : truthy (some d) = true)
    (n1 n2 n3 : Nat) (pop : Option String) (p2p : String → String) (fs : List String) :
    jsonParse (fence t) = none
    ∧ (processFile oracle).1
      = Json.obj [("error", Json.str "AI returned a response that could not be parsed.")]
    ∧ (part001Handler (Env.mk (some key)) (P001Req.mk "POST" (some (some d, some "image/png")))
        n1 n2 n3 pop p2p oracle fs).res
      = HttpResult.json 500 (Json.obj [("error", Json.str "Failed to parse AI response."),
          ("details", Json.str "The AI returned a response that could not be parsed as valid JSON.")]) := by
  have hj : jsonParse (fence t) = none := by
    have hd2 : (fence t).data = backtick :: ("``json\n".data ++ t.data ++ "\n```".data) := by
      show ("```json\n" ++ t ++ "\n```").data = _
      rw [String.data_append, String.data_append,
        show "```json\n".data = backtick :: "``json\n".data from rfl]
      simp
    rw [jsonParse, hd2]
    exact jsonParseChars_backtick _
  refine ⟨hj, ?_, ?_⟩
  · rw [processFile_parse_fail oracle (fence t) h0 hj]
  · rw [part001_parse_fail key d hd oracle (fence t) h0 hj n1 n2 n3 pop p2p fs]

/-- Witness for `c3_no_fence_strip` at the fenced empty object. -/
theorem c3_no_fence_strip_witness :
    (fun _ => CallOutcome.responds (some (fence "\x7b\x7d"))) 0
      = CallOutcome.responds (some (fence "\x7b\x7d"))
    ∧ truthy (some "AA") = true
    ∧ jsonParse (fence "\x7b\x7d") = none
    ∧ (processFile (fun _ => CallOutcome.responds (some (fence "\x7b\x7d")))).1
      = Json.obj [("error", Json.str "AI returned a response that could not be parsed.")] := by
  have h := c3_no_fence_strip "\x7b\x7d"
    (fun _ => CallOutcome.responds (some (fence "\x7b\x7d"))) rfl "k" "AA" rfl 0 0 0 none id []
  exact ⟨rfl, rfl, h.1, h.2.1⟩

/-- Every branch of the batch handler responds through `response.json`
(or the body-less `response.end` on OPTIONS), never through the raw
channel. -/
theorem batchHandler_isRaw (env : Env) (breq : BatchReq) (world : Nat → Nat → CallOutcome) :
    (batchHandler env breq world).1.isRaw = false := by
  unfold batchHandler
  repeat' split
  all_goals rfl

/-- Same for the single-file handler of `src/api/extract-invoice.js`. -/
theorem singleHandler_isRaw (env : Env) (sreq : SingleReq) (call : CallOutcome)
    (emsg : String → String) : (singleHandler env sreq call emsg).1.isRaw = false := by
  unfold singleHandler
  repeat' split
  all_goals rfl

/-- Same for the handler of `src/unnamed/part_001`. -/
theorem part001Handler_isRaw (env : Env) (p1 : P001Req) (n1 n2 n3 : Nat)
    (pop : Option String) (p2p : String → String) (oracle : Nat → CallOutcome)
    (fs : List String) :
    (part001Handler env p1 n1 n2 n3 pop p2p oracle fs).res.isRaw = false := by
  unfold part001Handler
  repeat' split
  all_goals rfl

/-- C2: every response of the `extract-invoice.js` handlers and of
`part_001` is emitted through the JSON channel (the body-less 200 of the
OPTIONS preflight aside) — never as raw text — and when the model output
fails to parse as JSON, the batch pipeline records the fixed error
envelope in the file's result slot while `part_001` answers HTTP 500 with
its fixed JSON error envelope; the raw model text is never the top-level
response. -/
theorem c2_json_response (env : Env) (breq : BatchReq) (world : Nat → Nat → CallOutcome)
    (sreq : SingleReq) (call : CallOutcome) (emsg : String → String)
    (p1 : P001Req) (n1 n2 n3 : Nat) (pop : Option String) (p2p : String → String)
    (oracle : Nat → CallOutcome) (fs : List String)
    (raw : String) (hraw : jsonParse raw = none)
    (h0 : oracle 0 = CallOutcome.responds (some raw))
    (key d : String) (hd : truthy (some d) = true) :
    (batchHandler env breq world).1.isRaw = false
    ∧ (singleHandler env sreq call emsg).1.isRaw = false
    ∧ (part001Handler env p1 n1 n2 n3 pop p2p oracle fs).res.isRaw = false
    ∧ (processFile oracle).1
      = Json.obj [("error", Json.str "AI returned a response that could not be parsed.")]
    ∧ (part001Handler (Env.mk (some key)) (P001Req.mk "POST" (some (some d, some "image/png")))
        n1 n2 n3 pop p2p oracle fs).res
      = HttpResult.json 500 (Json.obj [("error", Json.str "Failed to parse AI response."),
          ("details", Json.str "The AI returned a response that could not be parsed as valid JSON.")]) := by
  refine ⟨batchHandler_isRaw env breq world, singleHandler_isRaw env sreq call emsg,
    part001Handler_isRaw env p1 n1 n2 n3 pop p2p oracle fs, ?_, ?_⟩
  · rw [processFile_parse_fail oracle raw h0 hraw]
  · rw [part001_parse_fail key d hd oracle raw h0 hraw n1 n2 n3 pop p2p fs]

/-- Witness for `c2_json_response` at a concrete unparseable model text. -/
theorem c2_json_response_witness :
    jsonParse "not json" = none
    ∧ (fun _ => CallOutcome.responds (some "not json")) 0
      = CallOutcome.responds (some "not json")
    ∧ truthy (some "AA") = true
    ∧ (batchHandler (Env.mk (some "k")) (BatchReq.mk "POST" none)
        (fun _ _ => CallOutcome.responds (some "not json"))).1.isRaw = false
    ∧ (processFile (fun _ => CallOutcome.responds (some "not json"))).1
      = Json.obj [("error", Json.str "AI returned a response that could not be parsed.")] := by
  have h := c2_json_response (Env.mk (some "k")) (BatchReq.mk "POST" none)
    (fun _ _ => CallOutcome.responds (some "not json"))
    (SingleReq.mk "POST" (some "AA") (some "image/png"))
    (CallOutcome.responds (some "not json")) id
    (P001Req.mk "POST" (some (some "AA", some "image/png")))
    0 0 0 none id (fun _ => CallOutcome.responds (some "not json")) []
    "not json" rfl rfl "k" "AA" rfl
  exact ⟨rfl, rfl, rfl, h.1, h.2.2.2.1⟩

/-- C4 counterexample: after a parse failure neither error result carries
the raw model text — for raw output `oops`, the batch entry and the
`part_001` response are fixed envelopes none of whose strings is `oops`. -/
theorem c4_raw_text_counterexample :
    jsonParse "oops" = none
    ∧ (processFile (fun _ => CallOutcome.responds (some "oops"))).1
      = Json.obj [("error", Json.str "AI returned a response that could not be parsed.")]
    ∧ (part001Handler (Env.mk (some "k"))
        (P001Req.mk "POST" (some (some "AA", some "image/png")))
        0 0 0 none id (fun _ => CallOutcome.responds (some "oops")) []).res
      = HttpResult.json 500 (Json.obj [("error", Json.str "Failed to parse AI response."),
          ("details", Json.str "The AI returned a response that could not be parsed as valid JSON.")])
    ∧ "oops" ∉ (["error", "AI returned a response that could not be parsed.",
        "Failed to parse AI response.", "details",
        "The AI returned a response that could not be parsed as valid JSON."] : List String) :=
  ⟨rfl, rfl, rfl, by decide⟩

/-- C4 amended: the parse-failure error results are fixed envelopes,
independent of the raw model text — the batch pipeline pushes
`error: AI returned a response that could not be parsed.` and `part_001`
answers 500 with its fixed error/details strings; the raw text goes only
to the server console, not into the response. -/
theorem c4_fixed_parse_error (raw : String) (hraw : jsonParse raw = none)
    (oracle : Nat → CallOutcome) (h0 : oracle 0 = CallOutcome.responds (some raw))
    (key d : String) (hd : truthy (some d) = true)
    (n1 n2 n3 : Nat) (pop : Option String) (p2p : String → String) (fs : List String) :
    processFile oracle
      = (Json.obj [("error", Json.str "AI returned a response that could not be parsed.")], 1)
    ∧ part001Handler (Env.mk (some key)) (P001Req.mk "POST" (some (some d, some "image/png")))
        n1 n2 n3 pop p2p oracle fs
      = ⟨HttpResult.json 500 (Json.obj [("error", Json.str "Failed to parse AI response."),
          ("details", Json.str "The AI returned a response that could not be parsed as valid JSON.")]), 1, fs⟩ := by
  exact ⟨processFile_parse_fail oracle raw h0 hraw,
    part001_parse_fail key d hd oracle raw h0 hraw n1 n2 n3 pop p2p fs⟩

/-- Witness for `c4_fixed_parse_error` at the raw text `oops`. -/
theorem c4_fixed_parse_error_witness :
    jsonParse "oops" = none
    ∧ truthy (some "AA") = true
    ∧ processFile (fun _ => CallOutcome.responds (some "oops"))
      = (Json.obj [("error", Json.str "AI returned a response that could not be parsed.")], 1) := by
  have h := c4_fixed_parse_error "oops" rfl (fun _ => CallOutcome.responds (some "oops")) rfl
    "k" "AA" rfl 0 0 0 none id []
  exact ⟨rfl, rfl, h.1⟩

/-- Each invoice contributes one row per line item, and one row when it
has no line items. -/
theorem flattenOne_length (inv : Json) :
    (flattenOne inv).length = max 1 (numLineItems inv) := by
  unfold flattenOne numLineItems
  cases hg : inv.get? "lineItems" with
  | none => rfl
  | some v =>
    cases v with
    | null => rfl
    | bool b => rfl
    | num n => rfl
    | str s => rfl
    | obj kvs => rfl
    | arr items =>
      cases items with
      | nil => rfl
      | cons x xs =>
        simp [List.isEmpty]

/-- C8: the row flattening of `src/unnamed/part_000` produces, for each
invoice with a non-empty `lineItems` array, exactly one row per line item
with the invoice-level fields duplicated onto every row and the item-level
fields read from the item, and for each invoice with no line items exactly
one row whose item-level columns are the explicit `null` literals; overall
the export has `max 1 (number of line items)` rows per invoice. -/
theorem c8_flatten_rows (invs : List Json) (_h : ∀ inv ∈ invs, LineItemsShaped inv) :
    (flattenInvoices invs).length
      = (invs.map (fun inv => max 1 (numLineItems inv))).sum
    ∧ (∀ inv ∈ invs, ∀ r ∈ flattenOne inv,
        r.invoiceNumber = inv.get? "invoiceNumber" ∧ r.vendorName = inv.get? "vendorName"
        ∧ r.invoiceDate = inv.get? "invoiceDate" ∧ r.dueDate = inv.get? "dueDate"
        ∧ r.totalAmount = inv.get? "totalAmount" ∧ r.currency = inv.get? "currency")
    ∧ (∀ inv ∈ invs, ∀ items, inv.get? "lineItems" = some (Json.arr items) → items ≠ [] →
        flattenOne inv = items.map (itemRow inv))
    ∧ (∀ inv it, (itemRow inv it).product = it.get? "product"
        ∧ (itemRow inv it).quantity = it.get? "quantity"
        ∧ (itemRow inv it).unitPrice = it.get? "unitPrice"
        ∧ (itemRow inv it).totalPrice = it.get? "totalPrice")
    ∧ (∀ inv ∈ invs, numLineItems inv = 0 →
        flattenOne inv = [nullRow inv])
    ∧ (∀ inv, (nullRow inv).product = some Json.null
        ∧ (nullRow inv).quantity = some Json.null
        ∧ (nullRow inv).unitPrice = some Json.null
        ∧ (nullRow inv).totalPrice = some Json.null) := by
  refine ⟨?_, ?_, ?_, fun inv it => ⟨rfl, rfl, rfl, rfl⟩, ?_, fun inv => ⟨rfl, rfl, rfl, rfl⟩⟩
  · clear _h
    induction invs with
    | nil => rfl
    | cons a t ih =>
      simp only [flattenInvoices, List.map_cons, List.flatten_cons, List.length_append,
        List.sum_cons] at ih ⊢
      rw [flattenOne_length, ih]
  · intro inv _ r hr
    unfold flattenOne at hr
    split at hr
    · split at hr
      · simp only [List.mem_singleton] at hr
        subst hr
        exact ⟨rfl, rfl, rfl, rfl, rfl, rfl⟩
      · obtain ⟨it, _, rfl⟩ := List.mem_map.mp hr
        exact ⟨rfl, rfl, rfl, rfl, rfl, rfl⟩
    · simp only [List.mem_singleton] at hr
      subst hr
      exact ⟨rfl, rfl, rfl, rfl, rfl, rfl⟩
  · intro inv _ items hg hne
    have he : items.isEmpty = false := by
      cases items with
      | nil => exact absurd rfl hne
      | cons x xs => rfl
    simp [flattenOne, hg, he]
  · intro inv _ hz
    unfold flattenOne
    unfold numLineItems at hz
    cases hg : inv.get? "lineItems" with
    | none => rfl
    | some v =>
      cases v with
      | arr items =>
        rw [hg] at hz
        cases items with
        | nil => rfl
        | cons x xs => simp at hz
      | null => rfl
      | bool b => rfl
      | num n => rfl
      | str s => rfl
      | obj kvs => rfl

/-- Witness for `c8_flatten_rows`: an invoice with two line items and an
invoice with none flatten to 2 + 1 rows. -/
theorem c8_flatten_rows_witness :
    (∀ inv ∈ ([Json.obj [("invoiceNumber", Json.str "I1"),
        ("lineItems", Json.arr [Json.obj [("product", Json.str "p")], Json.obj []])],
      Json.obj [("invoiceNumber", Json.str "I2")]] : List Json), LineItemsShaped inv)
    ∧ (flattenInvoices [Json.obj [("invoiceNumber", Json.str "I1"),
        ("lineItems", Json.arr [Json.obj [("product", Json.str "p")], Json.obj []])],
      Json.obj [("invoiceNumber", Json.str "I2")]]).length = 3 := by
  have hs : ∀ inv ∈ ([Json.obj [("invoiceNumber", Json.str "I1"),
      ("lineItems", Json.arr [Json.obj [("product", Json.str "p")], Json.obj []])],
    Json.obj [("invoiceNumber", Json.str "I2")]] : List Json), LineItemsShaped inv := by
    intro inv hinv
    simp only [List.mem_cons, List.mem_singleton] at hinv
    rcases hinv with rfl | rfl | hinv
    · trivial
    · trivial
    · simp at hinv
  refine ⟨hs, ?_⟩
  exact ((c8_flatten_rows _ hs).1).trans rfl

end Knognix
